import Mathlib

set_option maxRecDepth 100000

/-!
Verification development for the `populate` command of a leetcode workspace
populator (src/cmds/populate.rs).

The embedding is a shallow one:

* Pure string-building code (`write_comment`, `create_file_header`,
  `create_file_footer`, the per-language snippet assembly inside
  `PopulateCommand::write_file`) is translated to Lean string functions.
* File-system effects are modelled by an explicit `FS` state (an association
  list from paths to entries) threaded through the functions; fallible
  operations return `Except PError`.
* The Rust `f32` field `percent` is modelled as `ℚ`; the only operations the
  program performs on it are the `as usize` cast (truncation toward zero,
  saturating at 0 from below — Rust float-to-int cast semantics) and display.
* External collaborators (serde parsing of the cached descriptor, the network
  fetch, and the `syn`/`prettyplease` re-formatter invoked by
  `fix_rust_code`) are modelled as environment oracles supplied to
  `write_file`; everything the repository's own code does to their results is
  translated faithfully.
* Types declared in the repository outside the provided source file
  (`Problem`, `Question`, `Config`, the path helpers `code_path` and
  `test_cases_path`, `display_level`, `desc_comment`) are modelled from the
  spec; each such definition carries a doc comment saying so.
-/

/-- Error type of the crate, restricted to the variants `populate.rs`
produces: `Error::FeatureError(String)`, io errors converted via `?`
(`std::io::Error`), and a marker for a Rust panic (used to model the
out-of-bounds slice index reachable in `get_percent_view`). -/
inductive PError where
  | featureError (msg : String)
  | ioError (msg : String)
  | panicOob (msg : String)
deriving DecidableEq, Repr

/-- Modelled from the spec: the immutable problem record produced by the
external catalog (`cache::models::Problem`, not part of the provided source).
`percent` is the `f32` acceptance percentage, modelled as `ℚ`; `level` is the
numeric difficulty (1, 2, 3). -/
structure Problem where
  fid : Nat
  name : String
  slug : String
  category : String
  level : Nat
  percent : ℚ
  starred : Bool
  locked : Bool
  desc : String
deriving DecidableEq, Repr

/-- Modelled from the spec: one entry of `question.defs.0`
(`cache::models::CodeDefinition`): a language tag `value` and the starter
snippet `code`. -/
structure LangDef where
  value : String
  code : String
deriving DecidableEq, Repr

/-- Modelled from the spec: the lazily fetched question record
(`cache::models::Question`): language definitions, the concatenated test
cases (`all_cases`) and the full statement text backing `Question::desc`. -/
structure Question where
  defs : List LangDef
  all_cases : String
  content : String
deriving DecidableEq, Repr

/-- Modelled from the spec: the `[code]` section of the configuration that
`write_file` reads (`conf.code.*`). -/
structure CodeConf where
  lang : String
  test : Bool
  comment_problem_desc : Bool
  comment_leading : String
  start_marker : String
  end_marker : String
  edit_code_marker : Bool
  inject_before : Option (List String)
  inject_after : Option (List String)
deriving DecidableEq, Repr

/-- Modelled from the spec: the configuration record (only the part the
populate pipeline reads). -/
structure Config where
  code : CodeConf
deriving DecidableEq, Repr

/-- Modelled from the spec: `Problem::display_level` maps the numeric level
to its label (`Easy`/`Medium`/`Hard`). -/
def display_level (p : Problem) : String :=
  match p.level with
  | 1 => "Easy"
  | 2 => "Medium"
  | 3 => "Hard"
  | _ => "Unknown"

/-- Split a character list at newline characters. -/
def split_newlines : List Char → List (List Char)
  | [] => [[]]
  | c :: rest =>
    match split_newlines rest with
    | [] => [[c]]
    | h :: t => if c = '\n' then [] :: h :: t else (c :: h) :: t

/-- Rust `str::lines`: split on newline, treating the newline as a
terminator (no trailing empty line), empty string gives no lines. -/
def str_lines (s : String) : List String :=
  if s.data.isEmpty then []
  else
    (split_newlines
      (if s.data.getLast? = some '\n' then s.data.dropLast else s.data)).map
      (fun l => ⟨l⟩)

/-- Rust `content.trim().is_empty()`: true iff every character is
whitespace. -/
def is_blank (s : String) : Bool :=
  s.data.all Char.isWhitespace

/-- Modelled from the spec: `desc_comment` re-emits a statement as comment
lines, each prefixed with the configured comment leading. -/
def desc_comment_of (conf : Config) (text : String) : String :=
  String.join ((str_lines text).map
    (fun l => conf.code.comment_leading ++ " " ++ l ++ "\n"))

/-- Modelled from the spec: `conf.sys.urls.problem(slug)`, the canonical
problem URL. -/
def problem_url (slug : String) : String :=
  "https://leetcode.com/problems/" ++ slug ++ "/"

/-- Modelled from the spec: the Path Resolver. The canonical stub path is
`<root>/<category-based-dir>/<name>.<ext>`; the resolver is a pure,
deterministic function of problem identity (`crate::helper::code_path`).
The extension is fixed in the model (a single language is configured per
run, and `code_path(problem, None)` resolves to the same path as
`code_path(problem, Some(configured))`). -/
def problem_dir (p : Problem) : String :=
  "root/" ++ p.category

/-- File name component of the canonical stub (`module.file_name()`). -/
def problem_file (p : Problem) : String :=
  p.name ++ ".rs"

/-- Modelled from the spec: `crate::helper::code_path`. -/
def code_path (p : Problem) (_lang : Option String) : String :=
  problem_dir p ++ "/" ++ problem_file p

/-- Modelled from the spec: `crate::helper::test_cases_path`, the sibling
test-case file with a fixed suffix convention. -/
def test_cases_path (p : Problem) : String :=
  problem_dir p ++ "/" ++ p.name ++ ".tests.dat"

/-- `static PERCENT_VIEWS` from populate.rs: the ten decade labels. -/
def PERCENT_VIEWS : List String :=
  ["0-10", "10-20", "20-30", "30-40", "40-50", "50-60", "60-70", "70-80",
   "80-90", "90-100"]

/-- Rust `problem.percent as usize` for an `f32` percent: the cast truncates
toward zero and saturates at 0 for negative values (Rust float-to-int cast
semantics); modelled on `ℚ`. -/
def percent_as_usize (q : ℚ) : Nat :=
  if q < 0 then 0 else q.floor.toNat

/-- `PopulateCommand::get_percent_view`, with the `PathBuf` result rendered
as a `/`-joined string. The source indexes `PERCENT_VIEWS[index / 10]`
unchecked; the model returns `none` exactly when that index is out of
bounds, i.e. when the Rust code panics. -/
def get_percent_view (problem : Problem) : Option String :=
  let index := percent_as_usize problem.percent
  if 100 < index then some ("percent/" ++ "unknown")
  else (PERCENT_VIEWS[index / 10]?).map (fun s => "percent/" ++ s)

/-- An entry of the modelled file system: a regular file with its full
content, or a symbolic link with its target. -/
inductive FsEntry where
  | file (content : String)
  | link (target : String)
deriving DecidableEq, Repr

/-- The file system, modelled as an association list from absolute path to
entry (most recent binding first). Directories are implicit: `create_dir_all`
never fails (it tolerates already-existing directories), so the model does
not track them. -/
structure FS where
  entries : List (String × FsEntry)
deriving DecidableEq, Repr

/-- Look a path up. -/
def FS.get (fs : FS) (p : String) : Option FsEntry :=
  fs.entries.lookup p

/-- `Path::exists`. -/
def FS.pathExists (fs : FS) (p : String) : Bool :=
  (fs.get p).isSome

/-- Content of a regular file, if present. -/
def FS.getFile (fs : FS) (p : String) : Option String :=
  match fs.get p with
  | some (FsEntry.file c) => some c
  | _ => none

/-- `File::create` + `write_all`: create or truncate, then write. -/
def FS.write (fs : FS) (p : String) (c : String) : FS :=
  ⟨(p, FsEntry.file c) :: fs.entries.filter (fun e => !(e.1 == p))⟩

/-- `std::fs::remove_file`: fails (NotFound io error) when the path does not
exist, as the Rust call does. -/
def FS.removeFile (fs : FS) (p : String) : Except PError FS :=
  if fs.pathExists p then
    Except.ok ⟨fs.entries.filter (fun e => !(e.1 == p))⟩
  else
    Except.error (PError.ioError ("No such file or directory: " ++ p))

/-- `std::os::unix::fs::symlink original link`: fails with an AlreadyExists
io error when the link path already exists, as symlink(2) does. -/
def FS.symlink (fs : FS) (original : String) (link : String) :
    Except PError FS :=
  if fs.pathExists link then
    Except.error (PError.ioError ("File exists: " ++ link))
  else
    Except.ok ⟨(link, FsEntry.link original) :: fs.entries⟩

/-- `OpenOptions::new().append(true).create(true).write(true).open(p)`:
creates an empty file when the path is absent, otherwise leaves the content
for later appends. -/
def FS.openAppendCreate (fs : FS) (p : String) : FS :=
  if fs.pathExists p then fs else fs.write p ""

/-- A `write_all` on a handle that was opened in append mode. -/
def FS.appendFile (fs : FS) (p : String) (s : String) : FS :=
  match fs.getFile p with
  | some c => fs.write p (c ++ s)
  | none => fs.write p s

/-- The empty file system. -/
def FS.empty : FS := ⟨[]⟩

/-- `static RUST_DOC_STR_START`. -/
def RUST_DOC_STR_START : String := "//!"

/-- `static RUST_DOC_STR_END`. -/
def RUST_DOC_STR_END : String := "\n//!\n"

/-- `write_comment` from populate.rs: appends one doc-comment line; when the
accumulated content is still blank the comment text itself is omitted. -/
def write_comment (content : String) (comment : String) : String :=
  if is_blank content then
    content ++ RUST_DOC_STR_START ++ RUST_DOC_STR_END
  else
    content ++ RUST_DOC_STR_START ++ " " ++ comment ++ RUST_DOC_STR_END

/-- Display of the `f32` percent in the header (`format!("percent: {}")`),
modelled as numerator/denominator rendering of the `ℚ` model value; no claim
depends on this rendering. -/
def percent_display (q : ℚ) : String :=
  toString q.num ++ "/" ++ toString q.den

/-- `create_file_header` from populate.rs. -/
def create_file_header (problem : Problem) (url : String)
    (question_desc : String) : String :=
  let content := ""
  let content := write_comment content "# Challenge info"
  let content := write_comment content ("url: <" ++ url ++ ">")
  let content := write_comment content
    ("percent: " ++ percent_display problem.percent)
  let content := write_comment content ("level: " ++ display_level problem)
  let content := write_comment content ("category: " ++ problem.category)
  let content := write_comment content "# Question"
  let content := (str_lines question_desc).foldl write_comment content
  let content := content ++ "// delete the line below to build the solution\n" ++ "\n"
  let content := content ++ "#[cfg(feature = \"ignored\")]"
  let content := content ++ "mod inner \x7b" ++ "\n"
  let content := content ++ "use crate::solutions::Solution;" ++ "\n"
  let content := content ++ "\n"
  content

/-- `create_file_footer` from populate.rs: the closing text appended after
the language loop (closing brace for mod inner). -/
def file_footer : String := "mod x\x7b\x7d\x7d" ++ "\n"

/-- Everything the language loop in `write_file` emits before the starter
code of a matching definition, in source order: the optional statement
duplicate, the optional `inject_before` lines, the optional start marker. -/
def lang_block_pre (conf : Config) (p_desc_comment question_desc : String) :
    String :=
  (if conf.code.comment_problem_desc then p_desc_comment ++ question_desc
   else "")
  ++ (match conf.code.inject_before with
      | some lines => String.join (lines.map (fun l => l ++ "\n"))
      | none => "")
  ++ (if conf.code.edit_code_marker then
        conf.code.comment_leading ++ " " ++ conf.code.start_marker ++ "\n"
      else "")

/-- Everything the language loop emits after the starter code: the newline
`writeln!` appends to the code, the optional end marker, the optional
`inject_after` lines. -/
def lang_block_post (conf : Config) : String :=
  "\n"
  ++ (if conf.code.edit_code_marker then
        conf.code.comment_leading ++ " " ++ conf.code.end_marker ++ "\n"
      else "")
  ++ (match conf.code.inject_after with
      | some lines => String.join (lines.map (fun l => l ++ "\n"))
      | none => "")

/-- The full text the loop body of `write_file` emits for one matching
language definition. -/
def lang_block (conf : Config) (p_desc_comment question_desc : String)
    (d : LangDef) : String :=
  lang_block_pre conf p_desc_comment question_desc ++ d.code
    ++ lang_block_post conf

/-- One iteration of the `for d in question.defs.0` loop of `write_file`:
on a language match, append the snippet block to the content, set the flag,
and (when test emission is on) create and write the test-case file. -/
def assemble_step (conf : Config) (pdc qd tp cases : String)
    (acc : String × Bool × FS) (d : LangDef) : String × Bool × FS :=
  if d.value == conf.code.lang then
    (acc.1 ++ lang_block conf pdc qd d, true,
     if conf.code.test then (acc.2.2).write tp cases else acc.2.2)
  else acc

/-- The whole `for d in question.defs.0` loop: fold `assemble_step` over the
language definitions starting from the header, no match seen, and the
current file system. -/
def assemble_defs (conf : Config) (pdc qd tp cases : String)
    (defs : List LangDef) (header : String) (fs : FS) :
    String × Bool × FS :=
  defs.foldl (assemble_step conf pdc qd tp cases) (header, false, fs)

/-- Rust `str::replace` on character lists: replace every non-overlapping
occurrence of `pat`, scanning left to right. The first argument is fuel
(one unit per examined character position); callers pass the input length,
which suffices for a non-empty pattern. -/
def replace_chars (pat rep : List Char) : Nat → List Char → List Char
  | 0, l => l
  | _, [] => []
  | fuel + 1, c :: rest =>
    if pat.isPrefixOf (c :: rest) then
      rep ++ replace_chars pat rep fuel (List.drop (pat.length - 1) rest)
    else
      c :: replace_chars pat rep fuel rest

/-- Rust `str::replace` on strings. -/
def str_replace (s pat rep : String) : String :=
  ⟨replace_chars pat.data rep.data s.data.length s.data⟩

/-- `fix_rust_code` from populate.rs: the tab-to-four-spaces and
`box`-to-`boxy` replacements are the repository's own code (modelled by
`str_replace`); the `syn::parse_file` + `prettyplease::unparse` step is an
external library call, supplied as the `fmt` oracle (an `Except.error`
models a parse failure, mapped to `Error::FeatureError` as in the
source). -/
def fix_rust_code (fmt : String → Except String String) (content : String) :
    Except PError String :=
  let content := str_replace content "\t" "    "
  let content := str_replace content "box: Vec<Vec<char>>"
    "boxy: Vec<Vec<char>>"
  match fmt content with
  | Except.error e => Except.error (PError.featureError e)
  | Except.ok s => Except.ok s

/-- The external collaborators `write_file` interacts with:
`serde_json::from_str(&problem.desc)` (`parse_desc`, `none` models a parse
error), `cache.get_question_silent` (`fetch`, error text models the
formatted cache error), and the re-formatter inside `fix_rust_code`
(`fmt`). -/
structure WriteEnv where
  parse_desc : Problem → Option Question
  fetch : Problem → Except String Question
  fmt : String → Except String String

/-- `PopulateCommand::write_file`, returning the Rust function's result
together with the file system after the call. -/
def write_file (env : WriteEnv) (problem : Problem) (conf : Config)
    (fs : FS) : Except PError Unit × FS :=
  let test_flag := conf.code.test
  let p_desc_comment := desc_comment_of conf problem.desc
  let lang := conf.code.lang
  let path := code_path problem (some lang)
  if fs.pathExists path then (Except.ok (), fs)
  else
    let qr : Except PError Question :=
      match env.parse_desc problem with
      | some q => Except.ok q
      | none =>
        match env.fetch problem with
        | Except.ok q => Except.ok q
        | Except.error e =>
          Except.error (PError.featureError
            (e ++ ". name: " ++ problem.name ++ " id: "
              ++ toString problem.fid))
    match qr with
    | Except.error e => (Except.error e, fs)
    | Except.ok question =>
      let question_desc := desc_comment_of conf question.content ++ "\n"
      let test_path := test_cases_path problem
      let header := create_file_header problem (problem_url problem.slug)
        question.content
      let res := assemble_defs conf p_desc_comment question_desc test_path
        question.all_cases question.defs header fs
      let flag := res.2.1
      let fs1 := res.2.2
      let content := res.1 ++ file_footer
      match fix_rust_code env.fmt content with
      | Except.error e => (Except.error e, fs1)
      | Except.ok content =>
        let fs2 := fs1.write path content
        if !flag then
          let err_msg := "Question doesn't support " ++ lang
            ++ ", please try another. name: " ++ problem.name ++ ", id:"
            ++ toString problem.fid
          match fs2.removeFile path with
          | Except.error e => (Except.error e, fs2)
          | Except.ok fs3 =>
            if test_flag then
              match fs3.removeFile test_path with
              | Except.error e => (Except.error e, fs3)
              | Except.ok fs4 =>
                (Except.error (PError.featureError err_msg), fs4)
            else (Except.error (PError.featureError err_msg), fs3)
        else (Except.ok (), fs2)

/-- A plain configuration: rust, no test emission, no optional extras. -/
def conf_plain : Config :=
  { code := { lang := "rust", test := false, comment_problem_desc := false,
              comment_leading := "//", start_marker := "@lc code=start",
              end_marker := "@lc code=end", edit_code_marker := false,
              inject_before := none, inject_after := none } }

/-- `conf_plain` with test-file emission enabled. -/
def conf_test : Config :=
  { code := { conf_plain.code with test := true } }

/-- A question carrying one rust definition. -/
def q_rust : Question :=
  { defs := [{ value := "rust", code := "fn main() \x7b\x7d" }],
    all_cases := "[1,2]\n9\n", content := "Sum two numbers." }

/-- A question carrying no rust definition. -/
def q_python : Question :=
  { defs := [{ value := "python3", code := "def f(): pass" }],
    all_cases := "[1]\n", content := "Py only." }

/-- An environment whose descriptor parse always yields `q` and whose
re-formatter is `fmt`. -/
def env_of (q : Question) (fmt : String → Except String String) : WriteEnv :=
  { parse_desc := fun _ => some q, fetch := fun _ => Except.error "no network",
    fmt := fmt }

/-- A re-formatter oracle that accepts every input unchanged. -/
def fmt_id : String → Except String String := fun s => Except.ok s

/-- A re-formatter oracle that always reports a parse error, as
`syn::parse_file` does on starter code that is not valid Rust. -/
def fmt_fail : String → Except String String :=
  fun _ => Except.error "expected item"

/-- Concatenation of a list of strings, in order. -/
def concat_all : List String → String
  | [] => ""
  | a :: l => a ++ concat_all l

/-- A question whose rust starter code contains a tab character. -/
def q_tab : Question :=
  { defs := [{ value := "rust",
               code := "fn main() \x7b\n\tlet x = 1;\n\x7d" }],
    all_cases := "", content := "Tabbed." }

/-- Sample problems exercising the percent boundaries. -/
def prob_percent (q : ℚ) : Problem :=
  { fid := 1, name := "two-sum", slug := "two-sum", category := "array",
    level := 1, percent := q, starred := false, locked := false,
    desc := "" }

/-- The star-status view directory name. -/
def star_dir (p : Problem) : String :=
  if p.starred then "starred" else "unstarred"

/-- `PopulateCommand::create_view`. `dir` and `file` are
`original.parent()` and `original.file_name()` of the canonical stub path
(the handler passes `code_path(problem, None)`, whose parent is
`problem_dir` and whose file name is `problem_file`). The percent view is
computed while the four (relative-path, view) pairs are built, so a percent
that makes `get_percent_view` panic aborts before any link is created;
`create_dir_all` tolerates an existing directory and is a no-op in the
model, and each `symlink` call fails if the link path already exists. -/
def create_view (problem : Problem) (dir file : String) (fs : FS) :
    Except PError FS :=
  match get_percent_view problem with
  | none => Except.error (PError.panicOob "index out of bounds")
  | some pv =>
    ([("..", problem.category),
      ("..", display_level problem),
      ("..", star_dir problem),
      ("../..", pv)] : List (String × String)).foldlM
      (fun fs pair =>
        FS.symlink fs (pair.1 ++ "/" ++ file)
          (dir ++ "/" ++ pair.2 ++ "/" ++ file))
      fs

/-- The state the `handler` loop threads through one batch run: the file
system, the keys of the `mod_rs_files` handle table (a `HashMap`, so keys
are distinct), the trace of manifest open events (one per
`OpenOptions::open` call), the trace of reference-line appends (one per
`mod X;` write), and the two counters. -/
structure BatchState where
  fs : FS
  mod_rs_files : List String
  opens : List String
  refs : List String
  premium_count : Nat
  error_count : Nat
deriving DecidableEq, Repr

/-- `HashMap::insert` on the key set: inserting an existing key replaces
its value and leaves the key set unchanged. -/
def insert_key (l : List String) (k : String) : List String :=
  if l.contains k then l else l ++ [k]

/-- `module.parent().unwrap().join("mod.rs")`. -/
def mod_path_of (p : Problem) : String :=
  problem_dir p ++ "/mod.rs"

/-- `module.file_stem()`: the stub file name without its extension. -/
def mod_name_of (p : Problem) : String :=
  p.name

/-- The body of the `for problem in &mut problems` loop of
`PopulateCommand::handler`: skip-and-count locked problems when
`skip_premium` is set; run `write_file`; on its failure either count and
continue (`continue_on_error`) or abort; on success open the manifest in
create-append mode, build the view links (whose failure aborts the batch
regardless of `continue_on_error`), append the `mod X;` reference line and
record the handle under its path. -/
def handler_step (env : WriteEnv) (conf : Config)
    (continue_on_error skip_premium : Bool) (st : BatchState)
    (problem : Problem) : Except PError BatchState :=
  if skip_premium && problem.locked then
    Except.ok { st with premium_count := st.premium_count + 1 }
  else
    match write_file env problem conf st.fs with
    | (Except.error e, fs1) =>
      if continue_on_error then
        Except.ok { st with fs := fs1, error_count := st.error_count + 1 }
      else
        Except.error e
    | (Except.ok _, fs1) =>
      match create_view problem (problem_dir problem) (problem_file problem)
          (fs1.openAppendCreate (mod_path_of problem)) with
      | Except.error e => Except.error e
      | Except.ok fs3 =>
        Except.ok { st with
          fs := fs3.appendFile (mod_path_of problem)
            ("mod " ++ mod_name_of problem ++ ";\n"),
          opens := st.opens ++ [mod_path_of problem],
          refs := st.refs ++ [mod_path_of problem],
          mod_rs_files := insert_key st.mod_rs_files (mod_path_of problem) }

/-- The `for problem in &mut problems` loop, in catalog order. -/
def handler_loop (env : WriteEnv) (conf : Config)
    (continue_on_error skip_premium : Bool) :
    List Problem → BatchState → Except PError BatchState
  | [], st => Except.ok st
  | p :: ps, st =>
    match handler_step env conf continue_on_error skip_premium st p with
    | Except.error e => Except.error e
    | Except.ok st1 =>
      handler_loop env conf continue_on_error skip_premium ps st1

/-- The finalization loop over `mod_rs_files.values_mut()`: append the
trailing boilerplate block (two `write_all` calls) to every recorded
manifest handle. -/
def finalize (st : BatchState) : BatchState :=
  let fs1 := st.mod_rs_files.foldl
    (fun fs mp =>
      (fs.appendFile mp "\n\n#[allow(dead_code)]\n").appendFile mp
        "pub(crate) struct Solution;\n")
    st.fs
  { st with fs := fs1 }

/-- `PopulateCommand::handler` after the problem list has been obtained:
the batch loop followed by finalization. -/
def handler_run (env : WriteEnv) (conf : Config)
    (continue_on_error skip_premium : Bool) (problems : List Problem)
    (st : BatchState) : Except PError BatchState :=
  (handler_loop env conf continue_on_error skip_premium problems st).map
    finalize

/-- The three counters the handler prints after the loop: problems found,
premium questions skipped, errors encountered. -/
def report (problems : List Problem) (st : BatchState) : Nat × Nat × Nat :=
  (problems.length, st.premium_count, st.error_count)

/-- A fresh batch state over a given initial file system. -/
def BatchState.initial (fs : FS) : BatchState :=
  { fs := fs, mod_rs_files := [], opens := [], refs := [],
    premium_count := 0, error_count := 0 }

/-- An unlocked, unstarred Easy problem with percent 47.5. -/
def mk_problem (fid : Nat) (name category : String) : Problem :=
  { fid := fid, name := name, slug := name, category := category,
    level := 1, percent := mkRat 95 2, starred := false, locked := false,
    desc := "" }

/-- Problem A of the manifest-ordering scenario (directory `alpha`). -/
def pA : Problem := mk_problem 1 "a" "alpha"

/-- Problem B of the manifest-ordering scenario (directory `beta`). -/
def pB : Problem := mk_problem 2 "b" "beta"

/-- Problem C of the manifest-ordering scenario (directory `alpha`,
sharing its manifest path with A but not with B). -/
def pC : Problem := mk_problem 3 "c" "alpha"

/-- A locked problem. -/
def p_locked : Problem :=
  { mk_problem 9 "locked" "cat" with locked := true }

/-- A full batch run over the three-problem sequence A, B, C. -/
def run_abc : Except PError BatchState :=
  handler_run (env_of q_rust fmt_id) conf_plain false false [pA, pB, pC]
    (BatchState.initial FS.empty)

/-- The manifest open-event trace of `run_abc`. -/
def run_abc_opens : List String :=
  match run_abc with
  | Except.ok st => st.opens
  | Except.error _ => []

/-- First run of the idempotence scenario: one problem over an empty file
system. -/
def run_one : Except PError BatchState :=
  handler_run (env_of q_rust fmt_id) conf_plain false false
    [prob_percent (mkRat 95 2)] (BatchState.initial FS.empty)

/-- The file system left by the first run. -/
def fs_after_first_run : FS :=
  match run_one with
  | Except.ok st => st.fs
  | Except.error _ => FS.empty

/-- Second run of the idempotence scenario: the same problem set over the
file system the first run produced. -/
def run_two : Except PError BatchState :=
  handler_run (env_of q_rust fmt_id) conf_plain false false
    [prob_percent (mkRat 95 2)] (BatchState.initial fs_after_first_run)

/-- The loop part of the A, B, C batch run, before finalization. -/
def run_abc_loop : Except PError BatchState :=
  handler_loop (env_of q_rust fmt_id) conf_plain false false [pA, pB, pC]
    (BatchState.initial FS.empty)

/-- The state the A, B, C loop ends in. -/
def st_abc : BatchState :=
  (run_abc_loop.toOption).getD (BatchState.initial FS.empty)

/-- C3: the claim states that percent=0 yields "0-10", 55 yields "50-60",
100 yields "90-100" (inclusive bound valid), and every value outside [0,100]
(above or below) yields "unknown". On the code, 0, 55 and 150 behave as
claimed, but percent=100 passes the `index > 100` guard and indexes the
ten-element `PERCENT_VIEWS` table at 10 — out of bounds, a panic (modelled
as `none`), not "90-100" — and a negative percent saturates to index 0 under
the `as usize` cast, yielding "0-10", not "unknown". -/
theorem percent_bucket_boundary_and_negative_behavior :
    get_percent_view (prob_percent 0) = some ("percent/" ++ "0-10")
    ∧ get_percent_view (prob_percent 55) = some ("percent/" ++ "50-60")
    ∧ get_percent_view (prob_percent 150) = some ("percent/" ++ "unknown")
    ∧ get_percent_view (prob_percent 100) = none
    ∧ get_percent_view (prob_percent (-5)) = some ("percent/" ++ "0-10") := by
  refine ⟨rfl, rfl, rfl, rfl, rfl⟩

/-- C10: the claim states the bucket function is total — the computed index
into the ten-element decade table is always within bounds. It is not: for
percent=100.25 (`mkRat 401 4`; any percent truncating to 100), the
`index > 100` guard does not fire, the consulted index is 100 / 10 = 10,
`PERCENT_VIEWS` has length 10, and the lookup is out of bounds — the Rust
code panics there (modelled as `none`). -/
theorem percent_index_out_of_bounds_at_100 :
    percent_as_usize (mkRat 401 4) = 100
    ∧ ¬ (100 < percent_as_usize (mkRat 401 4))
    ∧ PERCENT_VIEWS.length = 10
    ∧ PERCENT_VIEWS[percent_as_usize (mkRat 401 4) / 10]? = none
    ∧ get_percent_view (prob_percent (mkRat 401 4)) = none := by
  refine ⟨by decide, by decide, rfl, rfl, rfl⟩

/-- C1: the claim states that whenever the per-problem operation returns an
error no partially written stub or test file remains, and that a missing
language definition fails with an UnsupportedLanguage error naming the
problem. On the code: (1) with test emission enabled, a matching rust
definition whose starter code the re-formatter rejects makes `write_file`
return the formatting error while the already-written test-case file is
left on disk; (2) with test emission enabled and no matching definition,
the cleanup tries to remove the never-created test file and returns a
NotFound io error (without name or id) instead of the UnsupportedLanguage
message; (3) only with test emission disabled does the unsupported-language
path behave as claimed. -/
theorem write_file_error_leaves_partial_test_file :
    (write_file (env_of q_rust fmt_fail) (prob_percent (mkRat 95 2))
        conf_test FS.empty).1
      = Except.error (PError.featureError "expected item")
    ∧ ((write_file (env_of q_rust fmt_fail) (prob_percent (mkRat 95 2))
        conf_test FS.empty).2).pathExists
        (test_cases_path (prob_percent (mkRat 95 2))) = true
    ∧ ((write_file (env_of q_rust fmt_fail) (prob_percent (mkRat 95 2))
        conf_test FS.empty).2).pathExists
        (code_path (prob_percent (mkRat 95 2)) (some "rust")) = false
    ∧ (write_file (env_of q_python fmt_id) (prob_percent (mkRat 95 2))
        conf_test FS.empty).1
      = Except.error (PError.ioError ("No such file or directory: "
          ++ test_cases_path (prob_percent (mkRat 95 2))))
    ∧ ((write_file (env_of q_python fmt_id) (prob_percent (mkRat 95 2))
        conf_test FS.empty).2).pathExists
        (code_path (prob_percent (mkRat 95 2)) (some "rust")) = false
    ∧ (write_file (env_of q_python fmt_id) (prob_percent (mkRat 95 2))
        conf_plain FS.empty).1
      = Except.error (PError.featureError
          ("Question doesn't support rust, please try another. name: two-sum, id:1"))
    ∧ ((write_file (env_of q_python fmt_id) (prob_percent (mkRat 95 2))
        conf_plain FS.empty).2).pathExists
        (code_path (prob_percent (mkRat 95 2)) (some "rust")) = false := by
  refine ⟨rfl, rfl, rfl, rfl, rfl, rfl, rfl⟩

/-- Splitting `concat_all` at a distinguished element. -/
theorem concat_all_append_cons (l1 : List String) (x : String)
    (l2 : List String) :
    concat_all (l1 ++ x :: l2) = concat_all l1 ++ (x ++ concat_all l2) := by
  induction l1 with
  | nil => simp [concat_all, String.empty_append]
  | cons a l ih => simp [concat_all, ih, String.append_assoc]

/-- Behaviour of the language-definition loop, generalized over the
accumulator: the emitted content is the accumulated content followed by one
snippet block per matching definition (in order), and the flag records
whether any definition matched. -/
theorem assemble_fold_spec (conf : Config) (pdc qd tp cases : String) :
    ∀ (defs : List LangDef) (c : String) (b : Bool) (f : FS),
    ((defs.foldl (assemble_step conf pdc qd tp cases) (c, b, f)).1
      = c ++ concat_all ((defs.filter
          (fun d => d.value == conf.code.lang)).map
            (lang_block conf pdc qd)))
    ∧ ((defs.foldl (assemble_step conf pdc qd tp cases) (c, b, f)).2.1
      = (b || defs.any (fun d => d.value == conf.code.lang))) := by
  intro defs
  induction defs with
  | nil =>
    intro c b f
    simp [concat_all, String.append_empty]
  | cons d ds ih =>
    intro c b f
    cases hd : (d.value == conf.code.lang) with
    | false =>
      have h := ih c b f
      simp only [List.foldl_cons, assemble_step, hd, Bool.false_eq_true,
        if_false, List.filter_cons, List.any_cons]
      simpa [hd] using h
    | true =>
      have h := ih (c ++ lang_block conf pdc qd d) true
        (if conf.code.test then FS.write f tp cases else f)
      simp only [List.foldl_cons, assemble_step, hd, if_true,
        List.filter_cons, List.any_cons]
      constructor
      · rw [h.1]
        simp [concat_all, String.append_assoc]
      · rw [h.2]
        simp

/-- C6: the assembler reports a match iff at least one language definition's
tag equals the configured language, and the assembled content is the header
followed by one snippet block per matching definition, each encountered
match emitted in order (duplicates are not an error). -/
theorem assembler_match_flag_iff_and_blocks_emitted
    (conf : Config) (pdc qd tp cases header : String) (defs : List LangDef)
    (fs : FS) :
    ((assemble_defs conf pdc qd tp cases defs header fs).2.1 = true
      ↔ ∃ d ∈ defs, d.value = conf.code.lang)
    ∧ (assemble_defs conf pdc qd tp cases defs header fs).1
      = header ++ concat_all ((defs.filter
          (fun d => d.value == conf.code.lang)).map
            (lang_block conf pdc qd)) := by
  have h := assemble_fold_spec conf pdc qd tp cases defs header false fs
  constructor
  · rw [assemble_defs, h.2]
    simp [List.any_eq_true]
  · rw [assemble_defs, h.1]

/-- Witness for C6 at a concrete input: the single rust definition of
`q_rust` makes the flag true. -/
theorem assembler_match_flag_witness :
    (assemble_defs conf_plain "" "" "t" "c" q_rust.defs "h" FS.empty).2.1
      = true :=
  (assembler_match_flag_iff_and_blocks_emitted conf_plain "" "" "t" "c" "h"
      q_rust.defs FS.empty).1.mpr
    ⟨{ value := "rust", code := "fn main() \x7b\x7d" }, by simp [q_rust], rfl⟩

/-- If a needle occurs as an infix of a haystack then the executable
prefix-at-some-offset check finds it. -/
theorem infix_implies_contains (needle hay : List Char) :
    List.IsInfix needle hay →
      ((List.range (hay.length + 1)).any
        (fun i => needle.isPrefixOf (hay.drop i))) = true := by
  rintro ⟨s, t, rfl⟩
  apply List.any_eq_true.mpr
  refine ⟨s.length, List.mem_range.mpr (by simp; omega), ?_⟩
  rw [List.append_assoc, List.drop_left]
  exact List.isPrefixOf_iff_prefix.mpr (List.prefix_append needle t)

/-- C7 (amended): for every matching language definition, the starter code
appears verbatim in the assembled stub text handed to `fix_rust_code` (the
full pre-formatting content, footer included); the text actually written to
disk is `fix_rust_code`'s output — tab-to-space and `box`-to-`boxy`
replacements followed by an external re-format — and need not preserve the
starter code verbatim. -/
theorem starter_code_verbatim_in_assembled_text
    (conf : Config) (pdc qd tp cases header : String) (defs : List LangDef)
    (fs : FS) (d : LangDef) (hmem : d ∈ defs)
    (hval : d.value = conf.code.lang) :
    ∃ s t : String,
      (assemble_defs conf pdc qd tp cases defs header fs).1 ++ file_footer
        = s ++ d.code ++ t := by
  have hc := (assemble_fold_spec conf pdc qd tp cases defs header false fs).1
  have hdf : d ∈ defs.filter (fun d => d.value == conf.code.lang) :=
    List.mem_filter.mpr ⟨hmem, by simp [hval]⟩
  obtain ⟨s1, t1, hsplit⟩ := List.append_of_mem hdf
  refine ⟨header ++ concat_all (s1.map (lang_block conf pdc qd))
            ++ lang_block_pre conf pdc qd,
          lang_block_post conf
            ++ concat_all (t1.map (lang_block conf pdc qd))
            ++ file_footer, ?_⟩
  rw [hsplit, List.map_append, List.map_cons, concat_all_append_cons] at hc
  rw [assemble_defs, hc]
  simp [lang_block, String.append_assoc]

/-- Witness for C7's amended statement at a concrete input: the rust starter
code of `q_rust` occurs verbatim in the assembled text. -/
theorem starter_code_verbatim_witness :
    ∃ s t : String,
      (assemble_defs conf_plain "" "" "t" "c" q_rust.defs "h" FS.empty).1
          ++ file_footer
        = s ++ "fn main() \x7b\x7d" ++ t :=
  starter_code_verbatim_in_assembled_text conf_plain "" "" "t" "c" "h"
    q_rust.defs FS.empty { value := "rust", code := "fn main() \x7b\x7d" }
    (by simp [q_rust]) rfl

/-- C7 (counterexample): the claim as stated — the starter code appears
character for character in the stub text written to disk — fails for a
starter containing a tab: `fix_rust_code` replaces tabs with four spaces
before handing the text to the re-formatter, so even with a re-formatter
that returns its input unchanged the file on disk does not contain the
starter code verbatim. -/
theorem starter_code_not_verbatim_on_disk :
    (write_file (env_of q_tab fmt_id) (prob_percent (mkRat 95 2)) conf_plain
        FS.empty).1 = Except.ok ()
    ∧ ¬ List.IsInfix ("fn main() \x7b\n\tlet x = 1;\n\x7d".data)
        ((((write_file (env_of q_tab fmt_id) (prob_percent (mkRat 95 2))
            conf_plain FS.empty).2).getFile
          (code_path (prob_percent (mkRat 95 2)) (some "rust"))).getD
            "").data := by
  refine ⟨rfl, fun hinf => absurd (infix_implies_contains _ _ hinf)
    (by decide)⟩

/-- C5: over the sequence A, B, C — where A and C share the `alpha`
manifest path and B maps to `beta` — the finalized manifests contain the
reference lines in problem order followed by exactly one trailing
boilerplate block each, never interleaved or duplicated. -/
theorem manifest_reference_order_and_single_boilerplate :
    (run_abc.toOption.map (fun st => st.fs.getFile "root/alpha/mod.rs"))
      = some (some ("mod a;\n" ++ "mod c;\n"
          ++ "\n\n#[allow(dead_code)]\n" ++ "pub(crate) struct Solution;\n"))
    ∧ (run_abc.toOption.map (fun st => st.fs.getFile "root/beta/mod.rs"))
      = some (some ("mod b;\n"
          ++ "\n\n#[allow(dead_code)]\n"
          ++ "pub(crate) struct Solution;\n")) := by
  refine ⟨rfl, rfl⟩

/-- C4 (counterexample): the claim states each manifest path is opened at
most once per batch run. In the A, B, C run the shared `alpha` manifest is
opened twice — the handler reopens the manifest for every committed problem
instead of reusing the first handle. -/
theorem manifest_opened_twice_in_one_batch :
    run_abc.toOption.isSome = true
    ∧ ¬ (run_abc_opens.count "root/alpha/mod.rs" ≤ 1) := by
  refine ⟨rfl, by decide⟩

/-- C2: the claim states a second run over an unchanged problem set leaves
every file byte-identical and does not attempt to re-create any view
symlink. In the code, the first run succeeds and creates the stub, but the
second run — although `write_file` performs zero writes for the
already-existing stub — re-invokes `create_view`, whose first `symlink`
call fails with an AlreadyExists io error that aborts the whole batch. -/
theorem second_run_aborts_on_existing_view_symlink :
    run_one.toOption.isSome = true
    ∧ (match run_one with
       | Except.ok st => st.fs.pathExists "root/array/two-sum.rs"
       | Except.error _ => false) = true
    ∧ run_two
      = Except.error
          (PError.ioError ("File exists: root/array/array/two-sum.rs")) := by
  refine ⟨rfl, rfl, rfl⟩

/-- C4 (amended): the manifest aggregator does not reuse one handle per
batch; it reopens the manifest path (create-if-absent, append mode) once
per committed problem referencing it, so over any completed batch loop the
trace of manifest open events equals the trace of reference-line appends —
one open per appended `mod X;` line, not at most one per path. -/
theorem manifest_open_trace_matches_reference_trace
    (env : WriteEnv) (conf : Config) (coe sp : Bool) :
    ∀ (ps : List Problem) (st st1 : BatchState),
      handler_loop env conf coe sp ps st = Except.ok st1 →
      st.opens = st.refs → st1.opens = st1.refs := by
  intro ps
  induction ps with
  | nil =>
    intro st st1 h he
    simp only [handler_loop, Except.ok.injEq] at h
    exact h ▸ he
  | cons p ps ih =>
    intro st st1 h he
    rw [handler_loop] at h
    cases hs : handler_step env conf coe sp st p with
    | error e =>
      rw [hs] at h
      exact absurd h (by simp)
    | ok st2 =>
      rw [hs] at h
      refine ih st2 st1 h ?_
      unfold handler_step at hs
      split at hs
      · injection hs with h2
        subst h2
        exact he
      · split at hs
        · split at hs
          · injection hs with h2
            subst h2
            exact he
          · exact absurd hs (by simp)
        · split at hs
          · exact absurd hs (by simp)
          · injection hs with h2
            subst h2
            simp [he]

/-- Witness for C4's amended statement: at the end of the A, B, C loop the
open trace equals the reference trace. -/
theorem manifest_open_trace_witness :
    run_abc_loop = Except.ok st_abc ∧ st_abc.opens = st_abc.refs :=
  ⟨rfl,
   manifest_open_trace_matches_reference_trace (env_of q_rust fmt_id)
     conf_plain false false [pA, pB, pC] (BatchState.initial FS.empty)
     st_abc rfl rfl⟩

/-- C8: for a committed problem whose percent bucket exists, the view
builder creates exactly four symlinks to the canonical stub — category,
difficulty label, starred/unstarred, and percent/<decade> — each link
placed in the view directory next to the stub's directory (directory
creation tolerates an already-existing directory), with a relative target
whose `..` depth matches the view's nesting: the percentile view, one level
deeper, uses `../..` while the other three use `..`. -/
theorem create_view_four_links_with_depths
    (p : Problem) (dir file : String) (fs : FS) (pv : String)
    (hpv : get_percent_view p = some pv)
    (h1 : fs.pathExists (dir ++ "/" ++ p.category ++ "/" ++ file) = false)
    (h2 : fs.pathExists (dir ++ "/" ++ display_level p ++ "/" ++ file)
      = false)
    (h3 : fs.pathExists (dir ++ "/" ++ star_dir p ++ "/" ++ file) = false)
    (h4 : fs.pathExists (dir ++ "/" ++ pv ++ "/" ++ file) = false)
    (d21 : dir ++ "/" ++ display_level p ++ "/" ++ file
      ≠ dir ++ "/" ++ p.category ++ "/" ++ file)
    (d31 : dir ++ "/" ++ star_dir p ++ "/" ++ file
      ≠ dir ++ "/" ++ p.category ++ "/" ++ file)
    (d32 : dir ++ "/" ++ star_dir p ++ "/" ++ file
      ≠ dir ++ "/" ++ display_level p ++ "/" ++ file)
    (d41 : dir ++ "/" ++ pv ++ "/" ++ file
      ≠ dir ++ "/" ++ p.category ++ "/" ++ file)
    (d42 : dir ++ "/" ++ pv ++ "/" ++ file
      ≠ dir ++ "/" ++ display_level p ++ "/" ++ file)
    (d43 : dir ++ "/" ++ pv ++ "/" ++ file
      ≠ dir ++ "/" ++ star_dir p ++ "/" ++ file) :
    create_view p dir file fs
      = Except.ok ⟨(dir ++ "/" ++ pv ++ "/" ++ file,
            FsEntry.link ("../.." ++ "/" ++ file))
          :: (dir ++ "/" ++ star_dir p ++ "/" ++ file,
            FsEntry.link (".." ++ "/" ++ file))
          :: (dir ++ "/" ++ display_level p ++ "/" ++ file,
            FsEntry.link (".." ++ "/" ++ file))
          :: (dir ++ "/" ++ p.category ++ "/" ++ file,
            FsEntry.link (".." ++ "/" ++ file))
          :: fs.entries⟩ := by
  have e21 : ((dir ++ "/" ++ display_level p ++ "/" ++ file : String)
      == dir ++ "/" ++ p.category ++ "/" ++ file) = false :=
    beq_eq_false_iff_ne.mpr d21
  have e31 : ((dir ++ "/" ++ star_dir p ++ "/" ++ file : String)
      == dir ++ "/" ++ p.category ++ "/" ++ file) = false :=
    beq_eq_false_iff_ne.mpr d31
  have e32 : ((dir ++ "/" ++ star_dir p ++ "/" ++ file : String)
      == dir ++ "/" ++ display_level p ++ "/" ++ file) = false :=
    beq_eq_false_iff_ne.mpr d32
  have e41 : ((dir ++ "/" ++ pv ++ "/" ++ file : String)
      == dir ++ "/" ++ p.category ++ "/" ++ file) = false :=
    beq_eq_false_iff_ne.mpr d41
  have e42 : ((dir ++ "/" ++ pv ++ "/" ++ file : String)
      == dir ++ "/" ++ display_level p ++ "/" ++ file) = false :=
    beq_eq_false_iff_ne.mpr d42
  have e43 : ((dir ++ "/" ++ pv ++ "/" ++ file : String)
      == dir ++ "/" ++ star_dir p ++ "/" ++ file) = false :=
    beq_eq_false_iff_ne.mpr d43
  simp only [FS.pathExists, FS.get] at h1 h2 h3 h4
  unfold create_view
  rw [hpv]
  simp [List.foldlM, FS.symlink, FS.pathExists, FS.get, List.lookup,
    Bind.bind, Except.bind, Pure.pure, Except.pure, h1, h2, h3, h4,
    e21, e31, e32, e41, e42, e43]

/-- Witness for C8 at the spec's example problem (category `array`, Easy,
unstarred, percent 47.5): exactly the four links `array/two-sum.rs`,
`Easy/two-sum.rs`, `unstarred/two-sum.rs`, `percent/40-50/two-sum.rs`, the
first three with target `../two-sum.rs` and the percentile one with target
`../../two-sum.rs`. -/
theorem create_view_four_links_witness :
    create_view (prob_percent (mkRat 95 2)) "root/array" "two-sum.rs"
        FS.empty
      = Except.ok ⟨[("root/array/percent/40-50/two-sum.rs",
            FsEntry.link "../../two-sum.rs"),
          ("root/array/unstarred/two-sum.rs", FsEntry.link "../two-sum.rs"),
          ("root/array/Easy/two-sum.rs", FsEntry.link "../two-sum.rs"),
          ("root/array/array/two-sum.rs", FsEntry.link "../two-sum.rs")]⟩ :=
  create_view_four_links_with_depths (prob_percent (mkRat 95 2))
    "root/array" "two-sum.rs" FS.empty "percent/40-50" rfl rfl rfl rfl rfl
    (by decide) (by decide) (by decide) (by decide) (by decide) (by decide)

/-- C9: the batch orchestrator iterates problems in catalog order and
(1) with `skip_premium` set, counts and skips a locked problem before
invoking the generation gate — the step only increments the premium
counter; (2) with `continue_on_error` set, a generation failure is counted
and the loop proceeds (the step succeeds, keeping the gate's file-system
effects and incrementing the error counter); (3) with `continue_on_error`
unset, the first generation failure aborts the entire batch and propagates
that error, whatever problems remain; and after the loop the run reports
the total problem count, the premium-skipped count and the error count. -/
theorem orchestrator_skip_and_error_policy
    (env : WriteEnv) (conf : Config) (st : BatchState) (p : Problem)
    (ps : List Problem) (e : PError) :
    (∀ coe : Bool, p.locked = true →
      handler_step env conf coe true st p
        = Except.ok { st with premium_count := st.premium_count + 1 })
    ∧ (∀ sp : Bool, (sp && p.locked) = false →
        (write_file env p conf st.fs).1 = Except.error e →
        handler_step env conf true sp st p
          = Except.ok { st with
              fs := (write_file env p conf st.fs).2,
              error_count := st.error_count + 1 })
    ∧ (∀ sp : Bool, (sp && p.locked) = false →
        (write_file env p conf st.fs).1 = Except.error e →
        handler_loop env conf false sp (p :: ps) st = Except.error e)
    ∧ report ps st = (ps.length, st.premium_count, st.error_count) := by
  refine ⟨?_, ?_, ?_, rfl⟩
  · intro coe hl
    simp [handler_step, hl]
  · intro sp hsp herr
    cases hw : write_file env p conf st.fs with
    | mk r fs1 =>
      rw [hw] at herr
      simp only at herr
      subst herr
      simp [handler_step, hsp, hw]
  · intro sp hsp herr
    cases hw : write_file env p conf st.fs with
    | mk r fs1 =>
      rw [hw] at herr
      simp only at herr
      subst herr
      rw [handler_loop]
      simp [handler_step, hsp, hw]

/-- Witness for C9 at concrete inputs: a locked problem is counted and
skipped under `skip_premium`; an unsupported-language failure is counted
and survived under `continue_on_error`; without it the same failure aborts
a two-problem batch; and the report carries the three counters. -/
theorem orchestrator_policy_witness :
    handler_step (env_of q_python fmt_id) conf_plain false true
        (BatchState.initial FS.empty) p_locked
      = Except.ok { BatchState.initial FS.empty with premium_count := 1 }
    ∧ handler_step (env_of q_python fmt_id) conf_plain true false
        (BatchState.initial FS.empty) p_locked
      = Except.ok { BatchState.initial FS.empty with
          fs := (write_file (env_of q_python fmt_id) p_locked conf_plain
            FS.empty).2,
          error_count := 1 }
    ∧ handler_loop (env_of q_python fmt_id) conf_plain false false
        [p_locked, pA] (BatchState.initial FS.empty)
      = Except.error (PError.featureError
          "Question doesn't support rust, please try another. name: locked, id:9")
    ∧ report [pA] (BatchState.initial FS.empty) = (1, 0, 0) := by
  have h := orchestrator_skip_and_error_policy (env_of q_python fmt_id)
    conf_plain (BatchState.initial FS.empty) p_locked [pA]
    (PError.featureError
      "Question doesn't support rust, please try another. name: locked, id:9")
  exact ⟨h.1 false rfl, h.2.1 false rfl rfl, h.2.2.1 false rfl rfl,
    h.2.2.2⟩
